import Mathlib

/-!
# Verification of the SotaSoC serial-bus emulators (cocotb BFMs)

Shallow embedding, in Lean 4, of the bus-functional models of the SotaSoC
testbench:

* `tb/cocotb/i2c_slave_bfm.py`  — `I2CSlaveBFM` (I2C slave emulator),
* `tb/cocotb/spi_slave_bfm.py`  — `SPISlaveBFM` (SPI Mode-0 slave emulator),
* `tb/cocotb/qspi_memory_utils.py` — quad flash/PSRAM emulator
  (`test_spi_memory`) and the byte-memory accessors,
* `tb/cocotb/spi_memory_utils.py`  — single-bit flash/PSRAM emulator
  (`test_spi_memory`), whose memory accessors are textually identical to the
  quad ones.

Each coroutine's per-clock-tick body is embedded as an explicit step function
on a state record; the cocotb signal handles become plain inputs (the values
the master drives this tick) and output fields of the state (the values the
emulator drives).  Python byte strings / bytearrays are embedded as
`Nat → Nat` stores, Python lists as `List Nat`.  `assert False` becomes
`Option.none`.
-/

/-! ## Byte memory and its accessors (qspi_memory_utils.py / spi_memory_utils.py)

The Python `memory` is a `bytearray`; we embed it as a total function
`Nat → Nat` (every cell holds a byte value).  `memSet` is a single Python
item assignment `memory[addr] = v`. -/

def Mem : Type := Nat → Nat

def memSet (m : Mem) (a v : Nat) : Mem :=
  fun x => if x = a then v else m x

/-- `read_word_from_memory` (identical in qspi_memory_utils.py and
spi_memory_utils.py).  Its docstring says "(little-endian)"; the body reads
`memory[addr]` into the **most** significant byte. -/
def read_word_from_memory (memory : Mem) (addr : Nat) : Nat :=
  (memory addr <<< 24) |||
  (memory (addr + 1) <<< 16) |||
  (memory (addr + 2) <<< 8) |||
  (memory (addr + 3))

/-- `write_word_to_memory` (identical in both memory-utils files). -/
def write_word_to_memory (memory : Mem) (addr data : Nat) : Mem :=
  let memory := memSet memory addr ((data >>> 24) &&& 0xFF)
  let memory := memSet memory (addr + 1) ((data >>> 16) &&& 0xFF)
  let memory := memSet memory (addr + 2) ((data >>> 8) &&& 0xFF)
  memSet memory (addr + 3) (data &&& 0xFF)

/-- `read_halfword_from_memory` (identical in both memory-utils files). -/
def read_halfword_from_memory (memory : Mem) (addr : Nat) : Nat :=
  (memory addr <<< 8) ||| memory (addr + 1)

/-- `write_halfword_to_memory` (identical in both memory-utils files). -/
def write_halfword_to_memory (memory : Mem) (addr data : Nat) : Mem :=
  let memory := memSet memory addr ((data >>> 8) &&& 0xFF)
  memSet memory (addr + 1) (data &&& 0xFF)

/-- `read_byte_from_memory` (identical in both memory-utils files). -/
def read_byte_from_memory (memory : Mem) (addr : Nat) : Nat :=
  memory addr

/-- `write_byte_to_memory` (identical in both memory-utils files). -/
def write_byte_to_memory (memory : Mem) (addr data : Nat) : Mem :=
  memSet memory addr (data &&& 0xFF)

/-- `get_packed_bit(handle, bit_index)` of both memory-utils files. -/
def get_packed_bit (handleVal bitIndex : Nat) : Nat :=
  (handleVal >>> bitIndex) &&& 1

/-- `set_packed_bit(handle, bit_index, value)` of both memory-utils files.
The source hardcodes `current_val = 0`, so `current_val & ~(1 << bit_index)`
is `0` and every other bit of the handle is cleared; the result is the new
value of the handle. -/
def set_packed_bit (bitIndex value : Nat) : Nat :=
  0 ||| ((value &&& 1) <<< bitIndex)

/-- `test_utils.py` constants used by the flash/PSRAM emulators. -/
def FLASH_BASE_ADDR : Nat := 0x00000000

def PSRAM_BASE_ADDR : Nat := 0x01000000

/-! ## I2C slave BFM (i2c_slave_bfm.py, class I2CSlaveBFM)

State fields mirror the instance attributes set in `__init__` plus the
`run()`-loop local `addr` (a Python function local that persists across loop
iterations once assigned; field `addrLocal` here, initialised to 0 and never
read before its first assignment on any trace starting from reset).
The `running` flag, the clock handle and the constant `scl_in` drive
(set to 1 once and never changed) are not part of the transition data.
`sda_in` is the level the slave drives on SDA (1 = released). -/

inductive I2CFSM where
  | IDLE | ADDR | ACK_ADDR | DATA_WRITE | ACK_WRITE | DATA_READ | READ_WAIT_ACK
  deriving DecidableEq, Repr

structure I2CState where
  address : Nat
  rx_bytes : List Nat
  tx_bytes : List Nat
  tx_index : Nat
  prev_sda : Nat
  prev_scl : Nat
  state : I2CFSM
  bit_count : Nat
  shift_reg : Nat
  rw_bit : Nat
  ack_pending : Bool
  sda_in : Nat
  addrLocal : Nat
  deriving DecidableEq, Repr

namespace I2CSlaveBFM

/-- `I2CSlaveBFM.__init__` (with `address & 0x7F`), tx data set by
`set_tx_data`. -/
def init (address : Nat) (tx_data : List Nat) : I2CState :=
  { address := address &&& 0x7F
    rx_bytes := []
    tx_bytes := tx_data
    tx_index := 0
    prev_sda := 1
    prev_scl := 1
    state := .IDLE
    bit_count := 0
    shift_reg := 0
    rw_bit := 0
    ack_pending := false
    sda_in := 1
    addrLocal := 0 }

/-- `I2CSlaveBFM.get_rx_data`: `return list(self.rx_bytes)` — yields the
byte list and leaves the instance untouched (the aliasing aspect of the
copy is modelled separately at the heap level). -/
def get_rx_data (s : I2CState) : List Nat × I2CState :=
  (s.rx_bytes, s)

/-- `I2CSlaveBFM._get_next_tx_byte`. -/
def get_next_tx_byte (s : I2CState) : Nat × I2CState :=
  if s.tx_index < s.tx_bytes.length then
    ((s.tx_bytes.getD s.tx_index 0) &&& 0xFF, { s with tx_index := s.tx_index + 1 })
  else
    (0xFF, s)

/-- The "Main protocol state machine" block of `I2CSlaveBFM.run` (lines
168-257), extracted as a helper: it dispatches on the (possibly
START/STOP-updated) state, with the edge flags precomputed from the
previous tick's latched values. -/
def fsmPhase (s : I2CState) (sda scl : Nat)
    (rising_scl falling_scl : Bool) : I2CState :=
  match s.state with
    | .ADDR =>
      let s := if rising_scl then
          let shift := ((s.shift_reg <<< 1) ||| sda) &&& 0xFF
          let bc := s.bit_count + 1
          if bc == 8 then
            { s with shift_reg := shift, bit_count := bc,
                     rx_bytes := s.rx_bytes ++ [shift],
                     addrLocal := (shift >>> 1) &&& 0x7F,
                     rw_bit := shift &&& 0x1 }
          else
            { s with shift_reg := shift, bit_count := bc }
        else s
      if falling_scl then
        if s.bit_count == 8 then
          if s.addrLocal == s.address then
            { s with ack_pending := true, state := .ACK_ADDR }
          else
            { s with ack_pending := false, state := .IDLE }
        else s
      else s
    | .ACK_ADDR =>
      let s := { s with sda_in := 0 }  -- ACK = 0
      if falling_scl && s.ack_pending then
        let s := { s with sda_in := 1, bit_count := 0, shift_reg := 0 }
        if s.rw_bit == 0 then
          { s with state := .DATA_WRITE }
        else
          let (b, s) := get_next_tx_byte s
          { s with shift_reg := b, state := .DATA_READ }
      else s
    | .DATA_WRITE =>
      let s := if rising_scl then
          let shift := ((s.shift_reg <<< 1) ||| sda) &&& 0xFF
          let bc := s.bit_count + 1
          if bc == 8 then
            { s with shift_reg := shift, bit_count := bc,
                     rx_bytes := s.rx_bytes ++ [shift], ack_pending := true }
          else
            { s with shift_reg := shift, bit_count := bc }
        else s
      if falling_scl then
        if s.bit_count == 8 then { s with state := .ACK_WRITE } else s
      else s
    | .ACK_WRITE =>
      let s := { s with sda_in := 0 }  -- ACK
      if falling_scl && s.ack_pending then
        { s with sda_in := 1, ack_pending := false, bit_count := 0,
                 shift_reg := 0, state := .DATA_WRITE }
      else s
    | .DATA_READ =>
      let s := if scl == 0 && s.bit_count < 8 then
          { s with sda_in := (s.shift_reg >>> (7 - s.bit_count)) &&& 0x1 }
        else s
      if rising_scl then
        let bc := s.bit_count + 1
        if bc == 8 then
          { s with bit_count := bc, sda_in := 1, state := .READ_WAIT_ACK }
        else
          { s with bit_count := bc }
      else s
    | .READ_WAIT_ACK =>
      if rising_scl then
        let master_ack := sda == 0
        let s := { s with bit_count := 0 }
        if master_ack then
          let (b, s) := get_next_tx_byte s
          { s with shift_reg := b, state := .DATA_READ }
        else
          { s with state := .IDLE }
      else s
    | .IDLE => s

/-- One iteration of the `while self.running` loop of `I2CSlaveBFM.run`
(lines 138-261): executed once per rising edge of the system clock, with
`sda`/`scl` the values sampled from the master-side signals. -/
def step (s : I2CState) (sda scl : Nat) : I2CState :=
  let rising_scl := s.prev_scl == 0 && scl == 1
  let falling_scl := s.prev_scl == 1 && scl == 0
  let start_cond := s.prev_sda == 1 && sda == 0 && scl == 1
  let stop_cond := s.prev_sda == 0 && sda == 1 && scl == 1
  -- START condition always forces a new transaction
  let s := if start_cond then
      { s with state := .ADDR, bit_count := 0, shift_reg := 0,
               ack_pending := false, sda_in := 1 }
    else s
  -- STOP condition terminates any ongoing transaction
  let s := if stop_cond then
      { s with state := .IDLE, bit_count := 0, shift_reg := 0,
               ack_pending := false, sda_in := 1 }
    else s
  -- Main protocol state machine
  let s := fsmPhase s sda scl rising_scl falling_scl
  -- Save for next cycle
  { s with prev_scl := scl, prev_sda := sda }

/-- Run the BFM over a list of per-tick `(sda, scl)` master samples. -/
def run (s : I2CState) (ticks : List (Nat × Nat)) : I2CState :=
  ticks.foldl (fun s t => step s t.1 t.2) s

end I2CSlaveBFM

/-! ### Canonical master-side write traces (I2C)

Master-side `(sda, scl)` tick sequences for a standard write transaction:
SDA changes only while SCL is low, each bit is presented during an SCL-low
tick and latched by an SCL-high tick, and the ACK slots release SDA. -/

namespace I2CSlaveBFM

/-- Bit `i` (MSB first) of byte `b`. -/
def bitOf (b i : Nat) : Nat := (b >>> (7 - i)) &&& 1

/-- Present one bit during SCL low, then raise SCL (the slave samples on the
rising edge). -/
def bitTicks (bit : Nat) : List (Nat × Nat) := [(bit, 0), (bit, 1)]

/-- Clock out the 8 bits of `b`, MSB first. -/
def byteTicks (b : Nat) : List (Nat × Nat) :=
  bitTicks (bitOf b 0) ++ bitTicks (bitOf b 1) ++ bitTicks (bitOf b 2) ++
  bitTicks (bitOf b 3) ++ bitTicks (bitOf b 4) ++ bitTicks (bitOf b 5) ++
  bitTicks (bitOf b 6) ++ bitTicks (bitOf b 7)

/-- The ACK clock: master releases SDA, pulses SCL once. -/
def ackTicks : List (Nat × Nat) := [(1, 0), (1, 1), (1, 0)]

/-- A byte followed by its ACK slot. -/
def byteAck (b : Nat) : List (Nat × Nat) := byteTicks b ++ ackTicks

/-- START: SDA falls while SCL is high, then SCL goes low. -/
def startTicks : List (Nat × Nat) := [(0, 1), (0, 0)]

/-- STOP: SDA low while SCL low, SCL rises, then SDA rises while SCL high. -/
def stopTicks : List (Nat × Nat) := [(0, 0), (0, 1), (1, 1)]

/-- Complete master write transaction: START, address byte `(a <<< 1)`
(R/W = 0), data bytes `ds`, STOP; every byte followed by its ACK slot. -/
def writeTrace (a : Nat) (ds : List Nat) : List (Nat × Nat) :=
  startTicks ++ byteAck (a <<< 1) ++ ds.flatMap byteAck ++ stopTicks

/-- The state of the slave between data bytes of a master write: transaction
addressed and ACKed, waiting for the next data bit, SDA released, previous
sample `(sda, scl) = (1, 0)` (the ACK slot just ended on a falling edge).
`ap` is the leftover `ack_pending` flag: `true` right after the address ACK
(the `ACK_ADDR` branch never clears it), `false` after every data-byte ACK. -/
def midWrite (a : Nat) (rx tx : List Nat) (txi : Nat) (ap : Bool) : I2CState :=
  { address := a
    rx_bytes := rx
    tx_bytes := tx
    tx_index := txi
    prev_sda := 1
    prev_scl := 0
    state := .DATA_WRITE
    bit_count := 0
    shift_reg := 0
    rw_bit := 0
    ack_pending := ap
    sda_in := 1
    addrLocal := a }

end I2CSlaveBFM

namespace I2CSlaveBFM

/-- Slave state in the middle of receiving a data byte: `k` bits already
sampled, shift register `v`, previous master sample `(p, q)`. -/
def midByte (a : Nat) (rx tx : List Nat) (txi : Nat) (ap : Bool)
    (k v p q : Nat) : I2CState :=
  { address := a
    rx_bytes := rx
    tx_bytes := tx
    tx_index := txi
    prev_sda := p
    prev_scl := q
    state := .DATA_WRITE
    bit_count := k
    shift_reg := v
    rw_bit := 0
    ack_pending := ap
    sda_in := 1
    addrLocal := a }

/-- Slave state right after sampling the eighth bit of a data byte: the byte
(value `v`) has just been appended to `rx_bytes` and `ack_pending` raised. -/
def midByteFull (a : Nat) (rx tx : List Nat) (txi : Nat) (v p : Nat) :
    I2CState :=
  { address := a
    rx_bytes := rx
    tx_bytes := tx
    tx_index := txi
    prev_sda := p
    prev_scl := 1
    state := .DATA_WRITE
    bit_count := 8
    shift_reg := v
    rw_bit := 0
    ack_pending := true
    sda_in := 1
    addrLocal := a }

/-- The value accumulated in `shift_reg` after the eight masked shifts of
`step` over the bits of `b`. -/
def byteVal (b : Nat) : Nat :=
  ((((((((((((((((((((((0 <<< 1) ||| bitOf b 0) &&& 0xFF) <<< 1) |||
    bitOf b 1) &&& 0xFF) <<< 1) ||| bitOf b 2) &&& 0xFF) <<< 1) |||
    bitOf b 3) &&& 0xFF) <<< 1) ||| bitOf b 4) &&& 0xFF) <<< 1) |||
    bitOf b 5) &&& 0xFF) <<< 1) ||| bitOf b 6) &&& 0xFF) <<< 1) ||| bitOf b 7

/-- Final state after the STOP condition of a master write. -/
def endWrite (a : Nat) (rx : List Nat) : I2CState :=
  { address := a
    rx_bytes := rx
    tx_bytes := []
    tx_index := 0
    prev_sda := 1
    prev_scl := 1
    state := .IDLE
    bit_count := 0
    shift_reg := 0
    rw_bit := 0
    ack_pending := false
    sda_in := 1
    addrLocal := a }

end I2CSlaveBFM

/-! ## SPI slave BFM (spi_slave_bfm.py, class SPISlaveBFM)

State fields mirror the instance attributes; `miso` is the level the slave
drives on MISO.  The `running` flag and the signal handles are not part of
the transition data. -/

structure SPIState where
  rx_buffer : List Nat
  tx_buffer : List Nat
  current_tx_byte : Nat
  bit_count : Nat
  rx_byte : Nat
  tx_byte : Nat
  tx_byte_index : Nat
  prev_sclk : Nat
  prev_cs_n : Nat
  miso : Nat
  deriving DecidableEq, Repr

namespace SPISlaveBFM

/-- `SPISlaveBFM.get_next_tx_byte`. -/
def get_next_tx_byte (s : SPIState) : SPIState :=
  if s.tx_byte_index < s.tx_buffer.length then
    { s with tx_byte := s.tx_buffer.getD s.tx_byte_index 0,
             tx_byte_index := s.tx_byte_index + 1 }
  else
    -- Default: send 0xFF if no more data
    { s with tx_byte := 0xFF }

/-- `SPISlaveBFM.__init__` followed by `set_tx_data(tx)` and the preamble of
`run()` (`miso = 0; get_next_tx_byte()`), i.e. the state in which the BFM
enters its polling loop. -/
def init (tx : List Nat) : SPIState :=
  get_next_tx_byte
    { rx_buffer := []
      tx_buffer := tx
      current_tx_byte := 0xFF
      bit_count := 0
      rx_byte := 0
      tx_byte := 0xFF
      tx_byte_index := 0
      prev_sclk := 0
      prev_cs_n := 0
      miso := 0 }

/-- `SPISlaveBFM.get_rx_data`: `return list(self.rx_buffer)`. -/
def get_rx_data (s : SPIState) : List Nat × SPIState :=
  (s.rx_buffer, s)

/-- One iteration of the `while self.running` loop of `SPISlaveBFM.run`
(lines 140-211): executed once per rising edge of the system clock with the
sampled `cs_n`, `sclk` and `mosi` values. -/
def step (s : SPIState) (cs_n sclk mosi : Nat) : SPIState :=
  let s :=
    -- Detect SPI enable/CS active (transfer start)
    if cs_n == 0 && s.prev_cs_n == 1 then
      let s := { s with rx_byte := 0 }
      -- Mode 0: output MSB on MISO before first rising edge
      { s with miso := (s.tx_byte >>> 7) &&& 1, bit_count := 1 }
    -- Detect SPI disable/CS inactive (transfer end)
    else if cs_n == 1 && s.prev_cs_n == 0 then
      let s := if s.bit_count ≥ 8 then
          -- Complete byte received
          { s with rx_buffer := s.rx_buffer ++ [s.rx_byte] }
        else s
      -- Reset for next transfer
      { s with bit_count := 0, rx_byte := 0, miso := 0 }
    -- During active transfer
    else if cs_n == 0 then
      -- Detect clock rising edge (sample MOSI)
      if sclk == 1 && s.prev_sclk == 0 then
        let mosi_bit := mosi &&& 1
        let s := { s with rx_byte := (s.rx_byte <<< 1) ||| mosi_bit }
        if s.bit_count == 8 then
          -- Byte complete ("shouldn't happen" branch of the source)
          let s := { s with rx_buffer := s.rx_buffer ++ [s.rx_byte],
                            bit_count := 0, rx_byte := 0 }
          get_next_tx_byte s
        else s
      -- Detect clock falling edge (change MISO)
      else if sclk == 0 && s.prev_sclk == 1 then
        if s.bit_count < 8 then
          -- Output next bit (MSB first)
          { s with miso := (s.tx_byte >>> (7 - s.bit_count)) &&& 1,
                   bit_count := s.bit_count + 1 }
        else s  -- bit_count == 8: pass
      else s
    else s
  -- Update previous values
  { s with prev_sclk := sclk, prev_cs_n := cs_n }

/-- Run the BFM over a list of per-tick `(cs_n, sclk, mosi)` samples. -/
def run (s : SPIState) (ticks : List (Nat × Nat × Nat)) : SPIState :=
  ticks.foldl (fun s t => step s t.1 t.2.1 t.2.2) s

/-- Run collecting the MISO level after every tick. -/
def runMiso (s : SPIState) (ticks : List (Nat × Nat × Nat)) :
    SPIState × List Nat :=
  ticks.foldl (fun acc t =>
    let s := step acc.1 t.1 t.2.1 t.2.2
    (s, acc.2 ++ [s.miso])) (s, [])

/-- `n` full SCLK pulses with a constant MOSI level while CS is asserted:
each pulse is a rising-edge tick followed by a falling-edge tick. -/
def pulses (n mosi : Nat) : List (Nat × Nat × Nat) :=
  (List.replicate n [(0, 1, mosi), (0, 0, mosi)]).flatten

/-- A complete chip-select window: CS idle-high tick, CS assert tick, `n`
SCLK pulses with MOSI at `mosi`, CS deassert tick. -/
def csWindow (n mosi : Nat) : List (Nat × Nat × Nat) :=
  [(1, 0, 0), (0, 0, mosi)] ++ pulses n mosi ++ [(1, 0, 0)]

end SPISlaveBFM

namespace SPISlaveBFM

/-- A chip-select window clocking the 8 bits of byte `b` on MOSI, MSB first:
CS idle-high tick, CS assert tick, then for every bit one rising-edge tick
carrying the bit and one falling-edge tick, then CS deassert. -/
def byteWindow (b : Nat) : List (Nat × Nat × Nat) :=
  [(1, 0, 0), (0, 0, 0)] ++
  [(0, 1, I2CSlaveBFM.bitOf b 0), (0, 0, 0),
   (0, 1, I2CSlaveBFM.bitOf b 1), (0, 0, 0),
   (0, 1, I2CSlaveBFM.bitOf b 2), (0, 0, 0),
   (0, 1, I2CSlaveBFM.bitOf b 3), (0, 0, 0),
   (0, 1, I2CSlaveBFM.bitOf b 4), (0, 0, 0),
   (0, 1, I2CSlaveBFM.bitOf b 5), (0, 0, 0),
   (0, 1, I2CSlaveBFM.bitOf b 6), (0, 0, 0),
   (0, 1, I2CSlaveBFM.bitOf b 7), (0, 0, 0)] ++
  [(1, 0, 0)]

end SPISlaveBFM

/-! ## Quad flash/PSRAM emulator (qspi_memory_utils.py, test_spi_memory)

The loop body of `test_spi_memory` is embedded as a step function; the
local variables of the coroutine become state fields, plus the emulator's
driven `dut.bus_io_in` value and the mutable `memory`.  Each step consumes
the sampled tick inputs `(flash_cs_n, ram_cs_n, sclk, io_out)` (`io_out` is
the master-driven `dut.bus_io_out` bus).  The `assert False` on an invalid
write bit count becomes `Option.none`.  The `cycles` counter and debug
printing carry no semantics and are omitted. -/

namespace QSPIMem

def FSM_IDLE : Nat := 0

def FSM_SEND_CMD : Nat := 1

def FSM_SEND_CMD_QUAD : Nat := 2

def FSM_SEND_ADDR : Nat := 3

def FSM_DUMMY : Nat := 4

def FSM_DATA_TRANSFER : Nat := 5

def FSM_PAUSE : Nat := 6

def FSM_DONE : Nat := 7

structure QSPIState where
  is_instr : Bool
  flash_in_cont_mode : Bool
  command : Nat
  fsm_state : Nat
  bit_counter : Nat
  addr : Nat
  data : Nat
  spi_clk_high : Bool
  bus_io_in : Nat
  mem : Mem

/-- Locals of `test_spi_memory` right before its `for` loop. -/
def init (memory : Mem) : QSPIState :=
  { is_instr := false
    flash_in_cont_mode := false
    command := 0x00
    fsm_state := FSM_IDLE
    bit_counter := 0
    addr := 0x000000
    data := 0x00000000
    spi_clk_high := true
    bus_io_in := 0
    mem := memory }

/-- The `FSM_IDLE` block of the loop (lines 127-150): sample the two
chip-selects and start an instruction or data transaction. -/
def idlePhase (s : QSPIState) (flash_cs_n ram_cs_n : Nat) : QSPIState :=
  let s := if flash_cs_n == 0 then
      let s := { s with is_instr := true }
      let s := if s.flash_in_cont_mode then
          { s with command := 0xEB, fsm_state := FSM_SEND_ADDR }
        else
          { s with command := 0, fsm_state := FSM_SEND_CMD }
      { s with bit_counter := 0, bus_io_in := 0, addr := 0, data := 0 }
    else s
  if ram_cs_n == 0 then
      { s with is_instr := false, fsm_state := FSM_SEND_CMD_QUAD,
               bit_counter := 0, bus_io_in := 0, command := 0,
               addr := 0, data := 0 }
    else s

/-- The chip-select deassertion check of the loop (lines 157-171): commit a
pending `0x38` write sized by `bit_counter` (`assert False` ↦ `none`) and
return to `FSM_IDLE`. -/
def deassertPhase (s : QSPIState) (flash_cs_n ram_cs_n : Nat) :
    Option QSPIState :=
  if (s.is_instr && flash_cs_n == 1) || (!s.is_instr && ram_cs_n == 1) then
    let s' : Option QSPIState :=
      if !s.is_instr && s.command == 0x38 then
        if s.bit_counter > 0 then
          if s.bit_counter == 32 then
            some { s with mem := write_word_to_memory s.mem s.addr s.data }
          else if s.bit_counter == 16 then
            some { s with
                   mem := write_halfword_to_memory s.mem s.addr s.data }
          else if s.bit_counter == 8 then
            some { s with mem := write_byte_to_memory s.mem s.addr s.data }
          else
            none  -- assert False: invalid bit_counter
        else some s
      else some s
    s'.map (fun s => { s with fsm_state := FSM_IDLE })
  else some s

/-- Lines 152-155: latch that the SPI clock has been seen high. -/
def sclkPhase (s : QSPIState) (sclk : Nat) : QSPIState :=
  if sclk == 1 then { s with spi_clk_high := true } else s

/-- The per-state dispatch of the loop (lines 173-272). -/
def chainPhase (s : QSPIState) (sclk io_out : Nat) : QSPIState :=
  if s.fsm_state == FSM_SEND_CMD then
        if sclk == 1 then
          let s := { s with command := (s.command <<< 1) ||| (io_out &&& 1),
                            bit_counter := s.bit_counter + 1 }
          if s.bit_counter == 8 then
            { s with fsm_state := FSM_SEND_ADDR, bit_counter := 0 }
          else s
        else s
      else if s.fsm_state == FSM_SEND_CMD_QUAD then
        if sclk == 1 then
          let s := { s with command := (s.command <<< 4) ||| io_out,
                            bit_counter := s.bit_counter + 4 }
          if s.bit_counter == 8 then
            { s with fsm_state := FSM_SEND_ADDR, bit_counter := 0 }
          else s
        else s
      else if s.fsm_state == FSM_SEND_ADDR then
        if sclk == 1 then
          let s := { s with addr := (s.addr <<< 4) ||| io_out,
                            bit_counter := s.bit_counter + 4 }
          if s.bit_counter == 24 then
            let s := { s with bit_counter := 0 }
            if s.is_instr then
              let s := { s with fsm_state := FSM_DUMMY,
                                addr := s.addr + FLASH_BASE_ADDR }
              { s with data := read_word_from_memory s.mem s.addr }
            else
              let s := { s with addr := s.addr + PSRAM_BASE_ADDR }
              if s.command == 0xEB then
                { s with fsm_state := FSM_DUMMY,
                         data := read_word_from_memory s.mem s.addr }
              else
                { s with fsm_state := FSM_DATA_TRANSFER, data := 0 }
          else s
        else s
      else if s.fsm_state == FSM_DUMMY then
        if sclk == 1 then
          let s := { s with bit_counter := s.bit_counter + 1 }
          if s.bit_counter == 6 then
            { s with fsm_state := FSM_DATA_TRANSFER, bit_counter := 0 }
          else s
        else s
      else
        if s.is_instr then
          if sclk == 0 && s.spi_clk_high then
            let s := { s with spi_clk_high := false }
            if s.fsm_state == FSM_DATA_TRANSFER then
              let s := { s with
                bus_io_in :=
                  ((s.data &&& 0xFFFFFFFF) >>> (28 - s.bit_counter)) &&& 0xF,
                bit_counter := s.bit_counter + 4,
                flash_in_cont_mode := true }
              if s.bit_counter == 32 then
                let s := { s with bit_counter := 0, addr := s.addr + 4 }
                { s with data := read_word_from_memory s.mem s.addr }
              else s
            else if s.fsm_state == FSM_DONE then
              { s with fsm_state := FSM_IDLE }
            else s
          else s
        else if !s.is_instr && s.command == 0xEB then
          if sclk == 0 && s.spi_clk_high then
            let s := { s with spi_clk_high := false }
            if s.fsm_state == FSM_DATA_TRANSFER then
              let s := { s with
                bus_io_in :=
                  ((s.data &&& 0xFFFFFFFF) >>> (28 - s.bit_counter)) &&& 0xF,
                bit_counter := s.bit_counter + 4 }
              if s.bit_counter == 32 then
                { s with bit_counter := 0, addr := s.addr + 4 }
              else s
            else if s.fsm_state == FSM_DONE then
              { s with fsm_state := FSM_IDLE }
            else s
          else s
        else
          if sclk == 0 then
            if s.fsm_state == FSM_DATA_TRANSFER then
              let s := { s with data := (s.data <<< 4) ||| io_out,
                                bit_counter := s.bit_counter + 4 }
              if s.bit_counter == 32 then
                { s with mem := write_word_to_memory s.mem s.addr s.data,
                         fsm_state := FSM_DONE }
              else s
            else if s.fsm_state == FSM_DONE then
              { s with fsm_state := FSM_IDLE }
            else s
          else s

/-- One iteration of the `for` loop of `test_spi_memory`
(qspi_memory_utils.py lines 126-272).  In `FSM_IDLE` the loop samples on
the falling clock edge; otherwise on the rising edge — either way it
consumes the tick's sampled input values.  The source's doubled
`if dut.bus_sclk.value == 1:` / `== 0:` tests are collapsed to one test
each (the inner repetition is a no-op). -/
def step (s : QSPIState) (flash_cs_n ram_cs_n sclk io_out : Nat) :
    Option QSPIState :=
  if s.fsm_state == FSM_IDLE then
    some (idlePhase s flash_cs_n ram_cs_n)
  else
    (deassertPhase (sclkPhase s sclk) flash_cs_n ram_cs_n).map
      (fun s => chainPhase s sclk io_out)

/-- Run over a list of `(flash_cs_n, ram_cs_n, sclk, io_out)` ticks. -/
def run (s : QSPIState) (ticks : List (Nat × Nat × Nat × Nat)) :
    Option QSPIState :=
  ticks.foldl (fun os t =>
    os.bind (fun s => step s t.1 t.2.1 t.2.2.1 t.2.2.2)) (some s)

/-- Run collecting the `bus_io_in` value driven after every tick. -/
def runOuts (s : QSPIState) (ticks : List (Nat × Nat × Nat × Nat)) :
    Option (QSPIState × List Nat) :=
  ticks.foldl (fun acc t =>
    acc.bind (fun p =>
      (step p.1 t.1 t.2.1 t.2.2.1 t.2.2.2).map
        (fun s => (s, p.2 ++ [s.bus_io_in])))) (some (s, []))

end QSPIMem

/-! ## Single-bit flash/PSRAM emulator (spi_memory_utils.py, test_spi_memory)

Same embedding conventions as the quad emulator.  This variant shifts the
command byte and 24-bit address as one 32-bit single-bit sequence, decodes
`command = 0x03` as a data-path read and anything else as a write, and at
chip-select deassert commits an accumulated partial write for
`command = 0x02`, sized by the accumulated bit count (32 → word, 16 →
halfword, 8 → byte, any other nonzero count hits `assert False`). -/

namespace SPI1Mem

def FSM_IDLE : Nat := 0

def FSM_SEND_CMD_ADDR : Nat := 1

def FSM_DATA_TRANSFER : Nat := 2

def FSM_PAUSE : Nat := 3

def FSM_DONE : Nat := 4

structure SPI1State where
  is_instr : Bool
  command : Nat
  fsm_state : Nat
  bit_counter : Nat
  addr : Nat
  data : Nat
  spi_clk_high : Bool
  bus_io_in : Nat
  mem : Mem

/-- Locals of `test_spi_memory` (spi_memory_utils.py) before its loop. -/
def init (memory : Mem) : SPI1State :=
  { is_instr := false
    command := 0x00
    fsm_state := FSM_IDLE
    bit_counter := 0
    addr := 0x00000000
    data := 0x00000000
    spi_clk_high := true
    bus_io_in := 0
    mem := memory }

/-- The `FSM_IDLE` block of the loop (lines 119-136). -/
def idlePhase (s : SPI1State) (flash_cs_n ram_cs_n : Nat) : SPI1State :=
  let s := if flash_cs_n == 0 then
      { s with is_instr := true, fsm_state := FSM_SEND_CMD_ADDR,
               bit_counter := 0, bus_io_in := 0, addr := 0, data := 0 }
    else s
  if ram_cs_n == 0 then
      { s with is_instr := false, fsm_state := FSM_SEND_CMD_ADDR,
               bit_counter := 0, bus_io_in := 0, addr := 0, data := 0 }
    else s

/-- The chip-select deassertion check of the loop (lines 143-157): commit a
pending `0x02` write sized by `bit_counter` (`assert False` ↦ `none`) and
return to `FSM_IDLE`. -/
def deassertPhase (s : SPI1State) (flash_cs_n ram_cs_n : Nat) :
    Option SPI1State :=
  if (s.is_instr && flash_cs_n == 1) || (!s.is_instr && ram_cs_n == 1) then
    let s' : Option SPI1State :=
      if !s.is_instr && s.command == 0x02 then
        if s.bit_counter > 0 then
          if s.bit_counter == 32 then
            some { s with mem := write_word_to_memory s.mem s.addr s.data }
          else if s.bit_counter == 16 then
            some { s with
                   mem := write_halfword_to_memory s.mem s.addr s.data }
          else if s.bit_counter == 8 then
            some { s with mem := write_byte_to_memory s.mem s.addr s.data }
          else
            none  -- assert False: invalid bit_counter
        else some s
      else some s
    s'.map (fun s => { s with fsm_state := FSM_IDLE })
  else some s

/-- Lines 139-141: latch that the SPI clock has been seen high. -/
def sclkPhase (s : SPI1State) (sclk : Nat) : SPI1State :=
  if sclk == 1 then { s with spi_clk_high := true } else s

/-- The per-state dispatch of the loop (lines 159-220). -/
def chainPhase (s : SPI1State) (sclk io_out : Nat) : SPI1State :=
  if s.fsm_state == FSM_SEND_CMD_ADDR then
        if sclk == 1 then
          let s := { s with addr := (s.addr <<< 1) ||| (io_out &&& 1),
                            bit_counter := s.bit_counter + 1 }
          if s.bit_counter == 32 then
            let s := { s with fsm_state := FSM_DATA_TRANSFER, bit_counter := 0 }
            if s.is_instr then
              let s := { s with addr := (s.addr &&& 0x00FFFFFF) + FLASH_BASE_ADDR }
              { s with data := read_word_from_memory s.mem s.addr }
            else
              let s := { s with command := (s.addr >>> 24) &&& 0xFF }
              let s := { s with addr := (s.addr &&& 0x00FFFFFF) + PSRAM_BASE_ADDR }
              if s.command == 0x03 then
                { s with data := read_word_from_memory s.mem s.addr }
              else
                { s with data := 0 }
          else s
        else s
      else
        if s.is_instr || (!s.is_instr && s.command == 0x03) then
          if sclk == 0 && s.spi_clk_high then
            let s := { s with spi_clk_high := false }
            if s.fsm_state == FSM_DATA_TRANSFER then
              let s := { s with
                bus_io_in :=
                  set_packed_bit 1
                    (((s.data &&& 0xFFFFFFFF) >>> (31 - s.bit_counter)) &&& 1),
                bit_counter := s.bit_counter + 1 }
              if s.bit_counter == 32 then
                let s := { s with bit_counter := 0, addr := s.addr + 4 }
                { s with data := read_word_from_memory s.mem s.addr }
              else s
            else if s.fsm_state == FSM_DONE then
              { s with fsm_state := FSM_IDLE }
            else s
          else s
        else
          if sclk == 0 then
            if s.fsm_state == FSM_DATA_TRANSFER then
              let s := { s with data := (s.data <<< 1) ||| (io_out &&& 1),
                                bit_counter := s.bit_counter + 1 }
              if s.bit_counter == 32 then
                { s with mem := write_word_to_memory s.mem s.addr s.data,
                         fsm_state := FSM_DONE }
              else s
            else if s.fsm_state == FSM_DONE then
              { s with fsm_state := FSM_IDLE }
            else s
          else s

/-- One iteration of the `for` loop of `test_spi_memory`
(spi_memory_utils.py lines 118-220).  `set_packed_bit(dut.bus_io_in, 1, v)`
overwrites the whole `bus_io_in` handle with `v <<< 1` (its hardcoded
`current_val = 0` clears the other bits); `get_packed_bit(dut.bus_io_out, 0)`
is `io_out &&& 1`. -/
def step (s : SPI1State) (flash_cs_n ram_cs_n sclk io_out : Nat) :
    Option SPI1State :=
  if s.fsm_state == FSM_IDLE then
    some (idlePhase s flash_cs_n ram_cs_n)
  else
    (deassertPhase (sclkPhase s sclk) flash_cs_n ram_cs_n).map
      (fun s => chainPhase s sclk io_out)

/-- Run over a list of `(flash_cs_n, ram_cs_n, sclk, io_out)` ticks. -/
def run (s : SPI1State) (ticks : List (Nat × Nat × Nat × Nat)) :
    Option SPI1State :=
  ticks.foldl (fun os t =>
    os.bind (fun s => step s t.1 t.2.1 t.2.2.1 t.2.2.2)) (some s)

end SPI1Mem

/-- Concrete four-byte memory 01 02 03 04 at addresses 0..3. -/
def memC2 : Mem := fun a =>
  if a = 0 then 0x01 else if a = 1 then 0x02
  else if a = 2 then 0x03 else if a = 3 then 0x04 else 0

/-- The all-zero memory. -/
def zeroMem : Mem := fun _ => 0

/-! ## Heap-level model of `get_rx_data`'s `list(...)` copy

`return list(self.rx_bytes)` / `return list(self.rx_buffer)` allocate a
fresh Python list object.  To state the aliasing consequences we model a
minimal Python heap of list objects addressed by references. -/

structure PyListHeap where
  cells : List (List Nat)

/-- Dereference a list object (unused references yield `[]`). -/
def PyListHeap.lookup (h : PyListHeap) (r : Nat) : List Nat :=
  h.cells.getD r []

/-- `list(x)` for the object at `r`: allocates a fresh cell holding a copy
of the contents and returns its reference. -/
def PyListHeap.listCopy (h : PyListHeap) (r : Nat) : PyListHeap × Nat :=
  (⟨h.cells ++ [h.lookup r]⟩, h.cells.length)

/-- `lst[i] = v` on the object at `r`. -/
def PyListHeap.setItem (h : PyListHeap) (r i v : Nat) : PyListHeap :=
  ⟨h.cells.set r ((h.lookup r).set i v)⟩

/-- Heap-level `I2CSlaveBFM.get_rx_data`: with the instance's `rx_bytes`
living at reference `rxRef`, `return list(self.rx_bytes)` allocates a copy
and touches neither the heap cells in use nor the instance. -/
def I2CSlaveBFM.get_rx_data_obj (h : PyListHeap) (rxRef : Nat)
    (s : I2CState) : PyListHeap × Nat × I2CState :=
  let p := h.listCopy rxRef
  (p.1, p.2, s)

/-- Heap-level `SPISlaveBFM.get_rx_data` (same body: `list(self.rx_buffer)`). -/
def SPISlaveBFM.get_rx_data_obj (h : PyListHeap) (rxRef : Nat)
    (t : SPIState) : PyListHeap × Nat × SPIState :=
  let p := h.listCopy rxRef
  (p.1, p.2, t)

/-- Concrete flash memory for the continuous-read scenario: word 0xDEADBEEF
(as the big-endian accessors read it) at 0x10, word 0xCAFEBABE at 0x14. -/
def memC6 : Mem := fun a =>
  if a = 0x10 then 0xDE else if a = 0x11 then 0xAD
  else if a = 0x12 then 0xBE else if a = 0x13 then 0xEF
  else if a = 0x14 then 0xCA else if a = 0x15 then 0xFE
  else if a = 0x16 then 0xBA else if a = 0x17 then 0xBE else 0

/-- Fold 4-bit groups MSB-first into a word. -/
def nibblesToWord (l : List Nat) : Nat :=
  l.foldl (fun a n => (a <<< 4) ||| n) 0

namespace QSPIMem

/-- One full SCLK pulse (rising then falling system tick) on the flash
chip-select with `io` driven by the master. -/
def pulsePair (io : Nat) : List (Nat × Nat × Nat × Nat) :=
  [(0, 1, 1, io), (0, 1, 0, io)]

/-- Scenario-3 input trace: flash chip-select asserted, command 0xEB
(single-bit, MSB first), quad address 0x000010, 6 dummy pulses, two 32-bit
data phases (16 further pulses), chip-select deassert, and one Idle tick
with the flash chip-select re-asserted. -/
def c6ticks : List (Nat × Nat × Nat × Nat) :=
  [(0, 1, 0, 0)] ++
  (pulsePair 1 ++ pulsePair 1 ++ pulsePair 1 ++ pulsePair 0 ++
   pulsePair 1 ++ pulsePair 0 ++ pulsePair 1 ++ pulsePair 1) ++
  (pulsePair 0 ++ pulsePair 0 ++ pulsePair 0 ++ pulsePair 0 ++
   pulsePair 1 ++ pulsePair 0) ++
  (List.replicate 21 (pulsePair 0)).flatten ++
  [(1, 1, 0, 0)] ++
  [(0, 1, 0, 0)]

end QSPIMem

namespace SPI1Mem

/-- The 32 command+address bits of a `0x02` (standard write) transaction to
address 0x000020, MSB first. -/
def c7CmdAddrBits : List Nat :=
  [0, 0, 0, 0, 0, 0, 1, 0] ++ [0, 0, 0, 0, 0, 0, 0, 0] ++
  [0, 0, 0, 0, 0, 0, 0, 0] ++ [0, 0, 1, 0, 0, 0, 0, 0]

/-- A data-path write window: RAM chip-select asserted, the 32
command/address bits presented on SCLK-high ticks, the data bits `dbits`
presented on the SCLK-low ticks that follow (the emulator samples levels
once per system tick), then chip-select deassert. -/
def writeTicks (dbits : List Nat) : List (Nat × Nat × Nat × Nat) :=
  [(1, 0, 0, 0)] ++ (c7CmdAddrBits.map (fun b => (1, 0, 1, b))) ++
  (dbits.map (fun d => (1, 0, 0, d))) ++ [(1, 1, 0, 0)]

/-- Mid command/address state on the data path of a write window. -/
def midCmdAddr (m : Mem) (k v : Nat) : SPI1State :=
  { is_instr := false
    command := 0
    fsm_state := FSM_SEND_CMD_ADDR
    bit_counter := k
    addr := v
    data := 0
    spi_clk_high := true
    bus_io_in := 0
    mem := m }

/-- Mid data state of a `0x02` write to `0x000020 + PSRAM_BASE_ADDR`. -/
def midData (m : Mem) (k w : Nat) : SPI1State :=
  { is_instr := false
    command := 0x02
    fsm_state := FSM_DATA_TRANSFER
    bit_counter := k
    addr := 0x000020 + PSRAM_BASE_ADDR
    data := w
    spi_clk_high := true
    bus_io_in := 0
    mem := m }

end SPI1Mem

def c4trace : List (Nat × Nat × Nat × Nat) :=
  [(0,1,0,0), (0,1,1,1), (0,1,0,0), (0,1,1,1), (0,1,0,0), (0,1,1,1),
   (0,1,0,0), (1,1,0,0)]

def c4i2cPre : I2CState :=
  { I2CSlaveBFM.init 0x21 [] with prev_sda := 0
                                  state := I2CFSM.DATA_WRITE
                                  bit_count := 5 }

def c4spiPre : SPIState :=
  { SPISlaveBFM.init [] with bit_count := 8
                             rx_byte := 0xAA }

def c4qspiPre : QSPIMem.QSPIState :=
  { QSPIMem.init zeroMem with is_instr := true
                              fsm_state := QSPIMem.FSM_SEND_CMD }

def c4qspiPost : QSPIMem.QSPIState :=
  { QSPIMem.init zeroMem with is_instr := true
                              fsm_state := QSPIMem.FSM_IDLE
                              spi_clk_high := false }

def c4spi1Pre : SPI1Mem.SPI1State :=
  { SPI1Mem.init zeroMem with is_instr := true
                              fsm_state := SPI1Mem.FSM_SEND_CMD_ADDR }

def c4spi1Post : SPI1Mem.SPI1State :=
  { SPI1Mem.init zeroMem with is_instr := true
                              spi_clk_high := false }

/-! ## Theorems -/

namespace I2CSlaveBFM

/-- `run` distributes over trace concatenation. -/
theorem run_append (s : I2CState) (t u : List (Nat × Nat)) :
    run s (t ++ u) = run (run s t) u := by
  simp [run, List.foldl_append]

theorem midWrite_eq_midByte (a : Nat) (rx tx : List Nat) (txi : Nat)
    (ap : Bool) : midWrite a rx tx txi ap = midByte a rx tx txi ap 0 0 1 0 :=
  rfl

/-- Clocking one (non-final) data bit into the `DATA_WRITE` state. -/
theorem data_bit_step (a : Nat) (rx tx : List Nat) (txi : Nat) (ap : Bool)
    (k v p q bit : Nat) (hb : bit = 0 ∨ bit = 1) (hq : q = 0 ∨ q = 1)
    (hk : k < 7) :
    run (midByte a rx tx txi ap k v p q) (bitTicks bit) =
      midByte a rx tx txi ap (k + 1) (((v <<< 1) ||| bit) &&& 0xFF) bit 1 := by
  have h8 : k ≠ 8 := by omega
  have h7 : k ≠ 7 := by omega
  rcases hb with rfl | rfl <;> rcases hq with rfl | rfl <;>
    simp [run, step, fsmPhase, bitTicks, midByte, h7, h8]

/-- Clocking the eighth data bit: the completed byte is appended. -/
theorem data_bit8_step (a : Nat) (rx tx : List Nat) (txi : Nat) (ap : Bool)
    (v p bit : Nat) (hb : bit = 0 ∨ bit = 1) :
    run (midByte a rx tx txi ap 7 v p 1) (bitTicks bit) =
      midByteFull a (rx ++ [((v <<< 1) ||| bit) &&& 0xFF]) tx txi
        (((v <<< 1) ||| bit) &&& 0xFF) bit := by
  rcases hb with rfl | rfl <;>
    simp [run, step, fsmPhase, bitTicks, midByte, midByteFull]

/-- The ACK slot after a completed data byte: the slave drives SDA low for
one clock and returns to `DATA_WRITE` with cleared counters. -/
theorem data_ack_step (a : Nat) (rx tx : List Nat) (txi v p : Nat) :
    run (midByteFull a rx tx txi v p) ackTicks =
      midWrite a rx tx txi false := by
  simp [run, step, fsmPhase, ackTicks, midByteFull, midWrite]

/-- Every extracted bit is 0 or 1. -/
theorem bitOf01 (b i : Nat) : bitOf b i = 0 ∨ bitOf b i = 1 := by
  have h : bitOf b i ≤ 1 := Nat.and_le_right
  omega

set_option maxRecDepth 10000 in
theorem byteVal_eq : ∀ b, b < 256 → byteVal b &&& 0xFF = b := by decide

/-- Clocking one full data byte plus its ACK slot from the inter-byte state
appends exactly that byte to `rx_bytes`. -/
theorem data_byte_ack_run (b : Nat) (hb : b < 256) (a : Nat)
    (rx tx : List Nat) (txi : Nat) (ap : Bool) :
    run (midWrite a rx tx txi ap) (byteAck b) =
      midWrite a (rx ++ [b]) tx txi false := by
  rw [midWrite_eq_midByte, byteAck, byteTicks, run_append,
      run_append, run_append, run_append, run_append, run_append,
      run_append, run_append,
      data_bit_step _ _ _ _ _ 0 _ _ _ _ (bitOf01 b 0) (Or.inl rfl) (by omega),
      data_bit_step _ _ _ _ _ 1 _ _ _ _ (bitOf01 b 1) (Or.inr rfl) (by omega),
      data_bit_step _ _ _ _ _ 2 _ _ _ _ (bitOf01 b 2) (Or.inr rfl) (by omega),
      data_bit_step _ _ _ _ _ 3 _ _ _ _ (bitOf01 b 3) (Or.inr rfl) (by omega),
      data_bit_step _ _ _ _ _ 4 _ _ _ _ (bitOf01 b 4) (Or.inr rfl) (by omega),
      data_bit_step _ _ _ _ _ 5 _ _ _ _ (bitOf01 b 5) (Or.inr rfl) (by omega),
      data_bit_step _ _ _ _ _ 6 _ _ _ _ (bitOf01 b 6) (Or.inr rfl) (by omega),
      data_bit8_step _ _ _ _ _ _ _ _ (bitOf01 b 7),
      data_ack_step]
  show midWrite a (rx ++ [byteVal b &&& 0xFF]) tx txi false =
    midWrite a (rx ++ [b]) tx txi false
  rw [byteVal_eq b hb]

/-- Clocking any list of data bytes (each < 256) from the inter-byte state
appends exactly those bytes, in order. -/
theorem data_bytes_run : ∀ (ds : List Nat), (∀ x ∈ ds, x < 256) →
    ∀ (a : Nat) (rx tx : List Nat) (txi : Nat) (ap : Bool),
    ∃ ap', run (midWrite a rx tx txi ap) (ds.flatMap byteAck) =
      midWrite a (rx ++ ds) tx txi ap' := by
  intro ds
  induction ds with
  | nil => intro _ a rx tx txi ap; exact ⟨ap, by simp [run]⟩
  | cons d rest ih =>
    intro h a rx tx txi ap
    have hd : d < 256 := h d (by simp)
    have hrest : ∀ x ∈ rest, x < 256 := fun x hx => h x (by simp [hx])
    obtain ⟨ap', hap'⟩ := ih hrest a (rx ++ [d]) tx txi false
    refine ⟨ap', ?_⟩
    rw [List.flatMap_cons, run_append, data_byte_ack_run d hd, hap']
    simp

set_option maxRecDepth 10000 in
/-- The address phase of a master write to any configured 7-bit address
`a`: START plus the address byte `(a <<< 1)` (R/W = 0) and its ACK slot
lead to the inter-byte write state with `rx_bytes = [a <<< 1]`. -/
theorem addr_phase_run : ∀ a, a < 128 →
    run (init a []) (startTicks ++ byteAck (a <<< 1)) =
      midWrite a [a <<< 1] [] 0 true := by decide

/-- The STOP sequence from the inter-byte write state ends the transaction. -/
theorem stop_run (a : Nat) (rx : List Nat) (ap : Bool) :
    run (midWrite a rx [] 0 ap) stopTicks = endWrite a rx := by
  cases ap <;> rfl

end I2CSlaveBFM

/-- C1: For every completed I2C master-write transaction to the configured
slave address (canonical Mode traces: START, address byte `(a <<< 1)` with
R/W = 0, any list of data bytes each ACKed by the slave, STOP), the
emulator's received-byte list is exactly the address byte followed by the
data bytes in order, and the transaction ends in the Idle state.  With the
slave configured at address 0x21, writing address byte 0x42 and data byte
0xAA makes `get_rx_data()` return `[0x42, 0xAA]`. -/
theorem i2c_write_transaction_rx (a : Nat) (ha : a < 128) (ds : List Nat)
    (hds : ∀ x ∈ ds, x < 256) :
    (I2CSlaveBFM.get_rx_data
        (I2CSlaveBFM.run (I2CSlaveBFM.init a []) (I2CSlaveBFM.writeTrace a ds))).1 =
      (a <<< 1) :: ds ∧
    (I2CSlaveBFM.run (I2CSlaveBFM.init a []) (I2CSlaveBFM.writeTrace a ds)).state =
      I2CFSM.IDLE := by
  have h1 : I2CSlaveBFM.run (I2CSlaveBFM.init a []) (I2CSlaveBFM.writeTrace a ds) =
      I2CSlaveBFM.endWrite a ((a <<< 1) :: ds) := by
    rw [I2CSlaveBFM.writeTrace, I2CSlaveBFM.run_append, I2CSlaveBFM.run_append,
        I2CSlaveBFM.addr_phase_run a ha]
    obtain ⟨ap', hap⟩ :=
      I2CSlaveBFM.data_bytes_run ds hds a [a <<< 1] [] 0 true
    rw [hap, I2CSlaveBFM.stop_run]
    simp
  rw [h1]
  exact ⟨rfl, rfl⟩

/-- Witness for C1 at the spec's concrete scenario 1. -/
theorem i2c_write_transaction_rx_witness :
    (I2CSlaveBFM.get_rx_data
        (I2CSlaveBFM.run (I2CSlaveBFM.init 0x21 [])
          (I2CSlaveBFM.writeTrace 0x21 [0xAA]))).1 = [0x42, 0xAA] :=
  (i2c_write_transaction_rx 0x21 (by decide) [0xAA] (by decide)).1.trans
    (by decide)

/-- Spec scenario 2 holds on the full-transfer trace: with `tx_bytes=[0xBB]`
and the master clocking `0xAA` over one 8-pulse window, the RX buffer reads
`[0xAA]` and the MISO levels at the eight rising-edge ticks (the values the
master samples) spell `0xBB`, the MSB being driven at CS assert, before the
first rising edge. -/
theorem spi_scenario2_full_transfer :
    (SPISlaveBFM.get_rx_data
        (SPISlaveBFM.run (SPISlaveBFM.init [0xBB])
          (SPISlaveBFM.byteWindow 0xAA))).1 = [0xAA] ∧
    (let outs := (SPISlaveBFM.runMiso (SPISlaveBFM.init [0xBB])
        (SPISlaveBFM.byteWindow 0xAA)).2
     [outs.getD 2 9, outs.getD 4 9, outs.getD 6 9, outs.getD 8 9,
      outs.getD 10 9, outs.getD 12 9, outs.getD 14 9, outs.getD 16 9]) =
      [1, 0, 1, 1, 1, 0, 1, 1] ∧
    [1, 0, 1, 1, 1, 0, 1, 1].foldl (fun a bit => 2 * a + bit) 0 = 0xBB := by
  refine ⟨rfl, rfl, rfl⟩

/-- C3 (code bug): after a window of exactly 7 full SCLK pulses (7 rising
edges) with MOSI held high, the BFM nevertheless appends the 7-bit partial
value `0x7F` to its RX buffer at chip-select deassert, because `bit_count`
(initialised to 1 at CS assert and incremented on falling edges) already
equals 8 there; the spec — and the source's own comment "At this point, we
should have received 8 bits" — demand that a partial byte be discarded. -/
theorem spi_seven_pulse_partial_byte_commit :
    ((SPISlaveBFM.csWindow 7 1).map (fun t => t.2.1)).count 1 = 7 ∧
    (SPISlaveBFM.get_rx_data
        (SPISlaveBFM.run (SPISlaveBFM.init []) (SPISlaveBFM.csWindow 7 1))).1 =
      [0x7F] := by
  constructor <;> rfl

/-- C5: once the TX cursor has passed the last configured byte, every
further fetch of a TX byte yields the fixed default 0xFF, never an error,
and leaves the cursor (and, for the I2C BFM, the whole state) unchanged —
idempotent across repeated reads; for both the I2C and the SPI slave BFMs. -/
theorem tx_exhausted_yields_ff (s : I2CState)
    (hs : s.tx_bytes.length ≤ s.tx_index) (t : SPIState)
    (ht : t.tx_buffer.length ≤ t.tx_byte_index) :
    I2CSlaveBFM.get_next_tx_byte s = (0xFF, s) ∧
    I2CSlaveBFM.get_next_tx_byte (I2CSlaveBFM.get_next_tx_byte s).2 =
      (0xFF, s) ∧
    SPISlaveBFM.get_next_tx_byte t = { t with tx_byte := 0xFF } ∧
    (SPISlaveBFM.get_next_tx_byte t).tx_byte_index = t.tx_byte_index ∧
    SPISlaveBFM.get_next_tx_byte (SPISlaveBFM.get_next_tx_byte t) =
      { t with tx_byte := 0xFF } := by
  have hs' : ¬ s.tx_index < s.tx_bytes.length := by omega
  have ht' : ¬ t.tx_byte_index < t.tx_buffer.length := by omega
  refine ⟨?_, ?_, ?_, ?_, ?_⟩ <;>
    simp [I2CSlaveBFM.get_next_tx_byte, SPISlaveBFM.get_next_tx_byte, hs', ht']

/-- Witness for C5 at a concrete exhausted state. -/
theorem tx_exhausted_yields_ff_witness :
    I2CSlaveBFM.get_next_tx_byte (I2CSlaveBFM.init 0x21 []) =
      (0xFF, I2CSlaveBFM.init 0x21 []) ∧
    SPISlaveBFM.get_next_tx_byte (SPISlaveBFM.init []) =
      { SPISlaveBFM.init [] with tx_byte := 0xFF } :=
  ⟨(tx_exhausted_yields_ff (I2CSlaveBFM.init 0x21 []) (by decide)
      (SPISlaveBFM.init []) (by decide)).1,
   (tx_exhausted_yields_ff (I2CSlaveBFM.init 0x21 []) (by decide)
      (SPISlaveBFM.init []) (by decide)).2.2.1⟩

namespace I2CSlaveBFM

set_option maxHeartbeats 1000000 in
/-- The FSM block only ever appends to `rx_bytes`. -/
theorem fsmPhase_rx_append (s : I2CState) (sda scl : Nat) (r f : Bool) :
    ∃ app, (fsmPhase s sda scl r f).rx_bytes = s.rx_bytes ++ app := by
  obtain ⟨ad, rx, tx, txi, ps, pc, st, bc, sh, rw, ap, sd, al⟩ := s
  cases st <;>
    (unfold fsmPhase get_next_tx_byte; dsimp only) <;>
    repeat' split
  all_goals first
    | exact ⟨_, rfl⟩
    | exact ⟨[], by simp⟩

set_option maxHeartbeats 1000000 in
/-- A whole tick only ever appends to `rx_bytes`. -/
theorem step_rx_append (s : I2CState) (sda scl : Nat) :
    ∃ app, (step s sda scl).rx_bytes = s.rx_bytes ++ app := by
  unfold step
  dsimp only
  obtain ⟨app, happ⟩ := fsmPhase_rx_append
    (if (s.prev_sda == 0 && sda == 1 && scl == 1) = true then
      { (if (s.prev_sda == 1 && sda == 0 && scl == 1) = true then
          { s with state := .ADDR, bit_count := 0, shift_reg := 0,
                   ack_pending := false, sda_in := 1 } else s) with
        state := I2CFSM.IDLE, bit_count := 0, shift_reg := 0,
        ack_pending := false, sda_in := 1 }
     else (if (s.prev_sda == 1 && sda == 0 && scl == 1) = true then
          { s with state := .ADDR, bit_count := 0, shift_reg := 0,
                   ack_pending := false, sda_in := 1 } else s))
    sda scl (s.prev_scl == 0 && scl == 1) (s.prev_scl == 1 && scl == 0)
  refine ⟨app, ?_⟩
  rw [happ]
  split <;> split <;> rfl

end I2CSlaveBFM

set_option maxRecDepth 10000 in
set_option maxHeartbeats 4000000 in
/-- C9 (amended): `rx_bytes` is append-only; but the address byte is
appended unconditionally as soon as its eighth bit is sampled, *before* the
ACK/NACK decision on the following falling edge, so even a transaction whose
address byte does not match the configured slave address records that
(NACKed) address byte.  With the slave configured at 0x21: clocking any
address byte `bv` after START leaves `rx_bytes = [bv]`, and the slave moves
to the ACK state exactly when the upper seven bits of `bv` match 0x21. -/
theorem i2c_rx_append_only_and_addr_byte :
    (∀ (s : I2CState) (sda scl : Nat),
      ∃ app, (I2CSlaveBFM.step s sda scl).rx_bytes = s.rx_bytes ++ app) ∧
    (∀ bv, bv < 256 →
      (I2CSlaveBFM.run (I2CSlaveBFM.init 0x21 [])
          (I2CSlaveBFM.startTicks ++ I2CSlaveBFM.byteTicks bv ++
            [(1, 0)])).rx_bytes = [bv] ∧
      ((I2CSlaveBFM.run (I2CSlaveBFM.init 0x21 [])
          (I2CSlaveBFM.startTicks ++ I2CSlaveBFM.byteTicks bv ++
            [(1, 0)])).state = I2CFSM.ACK_ADDR ↔
        (bv >>> 1) &&& 0x7F = 0x21)) :=
  ⟨I2CSlaveBFM.step_rx_append, by decide⟩

/-- Witness for C9's amended statement, at the matching address byte 0x42
and at one concrete step. -/
theorem i2c_rx_append_only_and_addr_byte_witness :
    ((I2CSlaveBFM.run (I2CSlaveBFM.init 0x21 [])
        (I2CSlaveBFM.startTicks ++ I2CSlaveBFM.byteTicks 0x42 ++
          [(1, 0)])).rx_bytes = [0x42]) ∧
    (∃ app, (I2CSlaveBFM.step (I2CSlaveBFM.init 0x21 []) 0 1).rx_bytes =
      (I2CSlaveBFM.init 0x21 []).rx_bytes ++ app) :=
  ⟨(i2c_rx_append_only_and_addr_byte.2 0x42 (by decide)).1,
   i2c_rx_append_only_and_addr_byte.1 (I2CSlaveBFM.init 0x21 []) 0 1⟩

/-- C9 (counterexample): the claim "a transaction whose address byte does
not match the configured slave address adds nothing to rx_bytes" is false:
with the slave configured at 0x21, clocking the non-matching address byte
0x44 (device 0x22) leaves `rx_bytes = [0x44]` while the slave NACKs and
returns to Idle. -/
theorem i2c_mismatch_addr_byte_recorded :
    (I2CSlaveBFM.get_rx_data
        (I2CSlaveBFM.run (I2CSlaveBFM.init 0x21 [])
          (I2CSlaveBFM.startTicks ++ I2CSlaveBFM.byteTicks 0x44 ++
            [(1, 0)]))).1 = [0x44] ∧
    (I2CSlaveBFM.run (I2CSlaveBFM.init 0x21 [])
        (I2CSlaveBFM.startTicks ++ I2CSlaveBFM.byteTicks 0x44 ++
          [(1, 0)])).state = I2CFSM.IDLE ∧
    (0x44 >>> 1) &&& 0x7F ≠ 0x21 := by
  refine ⟨rfl, rfl, by decide⟩

/-- C2 (code bug): the word/halfword accessors of the memory-utils files are
big-endian, not little-endian as the claim (and the functions' own
docstrings) state: reading bytes 01 02 03 04 yields 0x01020304, not the
little-endian 0x04030201, and writing 0x04030201 at 0 stores its *most*
significant byte 0x04 at the lowest address instead of the least significant
byte 0x01; likewise for the halfword accessors. -/
theorem word_accessors_are_bigendian :
    read_word_from_memory memC2 0 = 0x01020304 ∧
    read_word_from_memory memC2 0 ≠
      memC2 0 ||| (memC2 1 <<< 8) ||| (memC2 2 <<< 16) ||| (memC2 3 <<< 24) ∧
    write_word_to_memory zeroMem 0 0x04030201 0 = 0x04 ∧
    write_word_to_memory zeroMem 0 0x04030201 0 ≠ 0x04030201 &&& 0xFF ∧
    write_word_to_memory zeroMem 0 0x04030201 3 = 0x01 ∧
    read_halfword_from_memory memC2 0 = 0x0102 ∧
    read_halfword_from_memory memC2 0 ≠ memC2 0 ||| (memC2 1 <<< 8) ∧
    write_halfword_to_memory zeroMem 0 0x0201 0 = 0x02 := by
  refine ⟨by decide, by decide, by decide, by decide, by decide, by decide,
    by decide, by decide⟩

/-- The `list(...)` copy is fresh: new reference, same contents, existing
cells untouched, and mutating the copy leaves the original cell intact. -/
theorem listCopy_fresh (h : PyListHeap) (r : Nat) (hr : r < h.cells.length) :
    (h.listCopy r).2 ≠ r ∧
    (h.listCopy r).1.lookup (h.listCopy r).2 = h.lookup r ∧
    (∀ rr, rr < h.cells.length → (h.listCopy r).1.lookup rr = h.lookup rr) ∧
    (∀ i v, (((h.listCopy r).1.setItem (h.listCopy r).2 i v)).lookup r =
      h.lookup r) := by
  refine ⟨by simp [PyListHeap.listCopy]; omega, ?_, ?_, ?_⟩
  · simp [PyListHeap.listCopy, PyListHeap.lookup, List.getD_eq_getElem?_getD,
      List.getElem?_append_right]
  · intro rr hrr
    simp [PyListHeap.listCopy, PyListHeap.lookup, List.getD_eq_getElem?_getD,
      List.getElem?_append, hrr]
  · intro i v
    have hne : h.cells.length ≠ r := by omega
    simp [PyListHeap.listCopy, PyListHeap.setItem, PyListHeap.lookup,
      List.getD_eq_getElem?_getD, List.getElem?_set_ne hne,
      List.getElem?_append, hr]

/-- C10: `get_rx_data` has no side effect on the emulator — it returns the
RX contents and the state of every field unchanged — and, at the heap
level, the returned list is a fresh copy: a new reference with the same
contents, every live cell unchanged, and mutating the returned list does
not alter the emulator's internal buffer.  Both for the I2C and the SPI
slave BFMs. -/
theorem get_rx_data_pure_fresh_copy (s : I2CState) (t : SPIState)
    (h : PyListHeap) (r : Nat) (hr : r < h.cells.length) :
    I2CSlaveBFM.get_rx_data s = (s.rx_bytes, s) ∧
    SPISlaveBFM.get_rx_data t = (t.rx_buffer, t) ∧
    (I2CSlaveBFM.get_rx_data_obj h r s).2.2 = s ∧
    (SPISlaveBFM.get_rx_data_obj h r t).2.2 = t ∧
    (I2CSlaveBFM.get_rx_data_obj h r s).2.1 ≠ r ∧
    (I2CSlaveBFM.get_rx_data_obj h r s).1.lookup
      (I2CSlaveBFM.get_rx_data_obj h r s).2.1 = h.lookup r ∧
    (∀ rr, rr < h.cells.length →
      (I2CSlaveBFM.get_rx_data_obj h r s).1.lookup rr = h.lookup rr) ∧
    (∀ i v, ((I2CSlaveBFM.get_rx_data_obj h r s).1.setItem
        (I2CSlaveBFM.get_rx_data_obj h r s).2.1 i v).lookup r =
      h.lookup r) ∧
    (SPISlaveBFM.get_rx_data_obj h r t).2.1 ≠ r ∧
    (SPISlaveBFM.get_rx_data_obj h r t).1.lookup
      (SPISlaveBFM.get_rx_data_obj h r t).2.1 = h.lookup r ∧
    (∀ i v, ((SPISlaveBFM.get_rx_data_obj h r t).1.setItem
        (SPISlaveBFM.get_rx_data_obj h r t).2.1 i v).lookup r =
      h.lookup r) := by
  obtain ⟨hne, hcopy, hlive, hmut⟩ := listCopy_fresh h r hr
  exact ⟨rfl, rfl, rfl, rfl, hne, hcopy, hlive, hmut, hne, hcopy, hmut⟩

/-- Witness for C10 at a one-cell heap and the initial BFM states. -/
theorem get_rx_data_pure_fresh_copy_witness :
    (I2CSlaveBFM.get_rx_data_obj ⟨[[1, 2]]⟩ 0 (I2CSlaveBFM.init 0x21 [])).2.2 =
      I2CSlaveBFM.init 0x21 [] ∧
    (I2CSlaveBFM.get_rx_data_obj ⟨[[1, 2]]⟩ 0
        (I2CSlaveBFM.init 0x21 [])).2.1 ≠ 0 ∧
    ((I2CSlaveBFM.get_rx_data_obj ⟨[[1, 2]]⟩ 0 (I2CSlaveBFM.init 0x21 [])).1.setItem
        (I2CSlaveBFM.get_rx_data_obj ⟨[[1, 2]]⟩ 0
          (I2CSlaveBFM.init 0x21 [])).2.1 0 99).lookup 0 = [1, 2] :=
  have w := get_rx_data_pure_fresh_copy (I2CSlaveBFM.init 0x21 [])
    (SPISlaveBFM.init []) ⟨[[1, 2]]⟩ 0 (by decide)
  ⟨w.2.2.1, w.2.2.2.2.1, (w.2.2.2.2.2.2.2.1 0 99).trans rfl⟩

set_option maxRecDepth 10000 in
/-- C6: on the instruction path with command 0xEB and address 0x000010, the
emulator pre-fetches `read_word_from_memory` at 0x000010 (plus the flash
base offset 0), drives it as eight MSB-first nibbles after the dummy
cycles, then auto-increments the address by 4, re-fetches the word at
0x000014 and drives it in the immediately following data phase while
setting `continuous_mode`; after chip-select deassert, the next Idle tick
with the flash chip-select asserted pre-seeds command 0xEB and skips
straight to the address phase. -/
theorem flash_eb_continuous_read :
    (QSPIMem.run (QSPIMem.init memC6) (QSPIMem.c6ticks.take 29)).map
        (fun s => (s.fsm_state, s.addr, s.data)) =
      some (QSPIMem.FSM_DUMMY, 0x000010 + FLASH_BASE_ADDR,
        read_word_from_memory memC6 0x000010) ∧
    (QSPIMem.run (QSPIMem.init memC6) (QSPIMem.c6ticks.take 55)).map
        (fun s => (s.fsm_state, s.addr, s.data, s.flash_in_cont_mode)) =
      some (QSPIMem.FSM_DATA_TRANSFER, 0x000014,
        read_word_from_memory memC6 0x000014, true) ∧
    (QSPIMem.runOuts (QSPIMem.init memC6) QSPIMem.c6ticks).map
        (fun p =>
          ([p.2.getD 40 99, p.2.getD 42 99, p.2.getD 44 99, p.2.getD 46 99,
            p.2.getD 48 99, p.2.getD 50 99, p.2.getD 52 99, p.2.getD 54 99],
           [p.2.getD 56 99, p.2.getD 58 99, p.2.getD 60 99, p.2.getD 62 99,
            p.2.getD 64 99, p.2.getD 66 99, p.2.getD 68 99, p.2.getD 70 99])) =
      some ([0xD, 0xE, 0xA, 0xD, 0xB, 0xE, 0xE, 0xF],
            [0xC, 0xA, 0xF, 0xE, 0xB, 0xA, 0xB, 0xE]) ∧
    nibblesToWord [0xD, 0xE, 0xA, 0xD, 0xB, 0xE, 0xE, 0xF] =
      read_word_from_memory memC6 0x000010 ∧
    nibblesToWord [0xC, 0xA, 0xF, 0xE, 0xB, 0xA, 0xB, 0xE] =
      read_word_from_memory memC6 0x000014 ∧
    (QSPIMem.run (QSPIMem.init memC6) QSPIMem.c6ticks).map
        (fun s => (s.fsm_state, s.command, s.flash_in_cont_mode)) =
      some (QSPIMem.FSM_SEND_ADDR, 0xEB, true) := by
  exact ⟨rfl, rfl, rfl, by decide, by decide, rfl⟩

namespace SPI1Mem

theorem run_cons_some {s s' : SPI1State} {a b c d : Nat}
    {ts : List (Nat × Nat × Nat × Nat)} (h : step s a b c d = some s') :
    run s ((a, b, c, d) :: ts) = run s' ts := by
  unfold run
  simp [List.foldl_cons, h]

theorem idle_ram_assert (m : Mem) :
    step (init m) 1 0 0 0 = some (midCmdAddr m 0 0) := rfl

/-- Shifting one non-final command/address bit. -/
theorem cmdaddr_bit_step (m : Mem) (k v b : Nat) (hk : k < 31) :
    step (midCmdAddr m k v) 1 0 1 b =
      some (midCmdAddr m (k + 1) ((v <<< 1) ||| (b &&& 1))) := by
  have h31 : ¬(k = 31) := by omega
  simp [step, idlePhase, sclkPhase, deassertPhase, chainPhase, midCmdAddr, FSM_IDLE, FSM_SEND_CMD_ADDR, h31]

/-- Shifting the 32nd command/address bit of a transaction whose decoded
command byte is 0x02 and 24-bit address is 0x000020. -/
theorem cmdaddr_bit_done (m : Mem) (v b : Nat)
    (hcmd : ((((v <<< 1) ||| (b % 2)) >>> 24) &&& 0xFF) = 0x02)
    (haddr : (((v <<< 1) ||| (b % 2)) &&& 0x00FFFFFF) = 0x000020) :
    step (midCmdAddr m 31 v) 1 0 1 b = some (midData m 0 0) := by
  simp [step, idlePhase, sclkPhase, deassertPhase, chainPhase, midCmdAddr, midData,
    FSM_IDLE, FSM_SEND_CMD_ADDR, FSM_DATA_TRANSFER, hcmd, haddr]

/-- Sampling one non-final data bit of the write. -/
theorem write_data_bit_step (m : Mem) (k w d : Nat) (hk : k < 31) :
    step (midData m k w) 1 0 0 d =
      some (midData m (k + 1) ((w <<< 1) ||| (d &&& 1))) := by
  have h31 : ¬(k = 31) := by omega
  simp [step, idlePhase, sclkPhase, deassertPhase, chainPhase, midData, FSM_IDLE,
    FSM_SEND_CMD_ADDR, FSM_DATA_TRANSFER, FSM_DONE, h31]

/-- Chip-select deassert with 8 accumulated data bits commits a byte. -/
theorem write_deassert_byte (m : Mem) (w : Nat) :
    step (midData m 8 w) 1 1 0 0 =
      some { midData (write_byte_to_memory m (0x000020 + PSRAM_BASE_ADDR) w)
               8 w with fsm_state := FSM_IDLE } := by
  simp [step, idlePhase, sclkPhase, deassertPhase, chainPhase, midData, FSM_IDLE,
    FSM_SEND_CMD_ADDR, FSM_DATA_TRANSFER, FSM_DONE, write_byte_to_memory]

end SPI1Mem

set_option maxHeartbeats 1000000 in
/-- Evaluation of the full C7 write window, for every initial memory. -/
theorem c7_run_eval (m : Mem) :
    SPI1Mem.run (SPI1Mem.init m) (SPI1Mem.writeTicks [1, 0, 1, 0, 0, 1, 0, 1]) =
      some { SPI1Mem.midData
          (write_byte_to_memory m (0x000020 + PSRAM_BASE_ADDR) 0xA5) 8 0xA5 with
          fsm_state := SPI1Mem.FSM_IDLE } := by
  rw [show SPI1Mem.writeTicks [1, 0, 1, 0, 0, 1, 0, 1] =
    [(1, 0, 0, 0), (1, 0, 1, 0), (1, 0, 1, 0), (1, 0, 1, 0), (1, 0, 1, 0), (1, 0, 1, 0), (1, 0, 1, 0), (1, 0, 1, 1), (1, 0, 1, 0), (1, 0, 1, 0), (1, 0, 1, 0), (1, 0, 1, 0), (1, 0, 1, 0), (1, 0, 1, 0), (1, 0, 1, 0), (1, 0, 1, 0), (1, 0, 1, 0), (1, 0, 1, 0), (1, 0, 1, 0), (1, 0, 1, 0), (1, 0, 1, 0), (1, 0, 1, 0), (1, 0, 1, 0), (1, 0, 1, 0), (1, 0, 1, 0), (1, 0, 1, 0), (1, 0, 1, 0), (1, 0, 1, 1), (1, 0, 1, 0), (1, 0, 1, 0), (1, 0, 1, 0), (1, 0, 1, 0), (1, 0, 1, 0), (1, 0, 0, 1), (1, 0, 0, 0), (1, 0, 0, 1), (1, 0, 0, 0), (1, 0, 0, 0), (1, 0, 0, 1), (1, 0, 0, 0), (1, 0, 0, 1), (1, 1, 0, 0)] from by decide]
  rw [SPI1Mem.run_cons_some (SPI1Mem.idle_ram_assert m)]
  rw [SPI1Mem.run_cons_some (SPI1Mem.cmdaddr_bit_step m 0 _ 0 (by omega))]
  rw [SPI1Mem.run_cons_some (SPI1Mem.cmdaddr_bit_step m 1 _ 0 (by omega))]
  rw [SPI1Mem.run_cons_some (SPI1Mem.cmdaddr_bit_step m 2 _ 0 (by omega))]
  rw [SPI1Mem.run_cons_some (SPI1Mem.cmdaddr_bit_step m 3 _ 0 (by omega))]
  rw [SPI1Mem.run_cons_some (SPI1Mem.cmdaddr_bit_step m 4 _ 0 (by omega))]
  rw [SPI1Mem.run_cons_some (SPI1Mem.cmdaddr_bit_step m 5 _ 0 (by omega))]
  rw [SPI1Mem.run_cons_some (SPI1Mem.cmdaddr_bit_step m 6 _ 1 (by omega))]
  rw [SPI1Mem.run_cons_some (SPI1Mem.cmdaddr_bit_step m 7 _ 0 (by omega))]
  rw [SPI1Mem.run_cons_some (SPI1Mem.cmdaddr_bit_step m 8 _ 0 (by omega))]
  rw [SPI1Mem.run_cons_some (SPI1Mem.cmdaddr_bit_step m 9 _ 0 (by omega))]
  rw [SPI1Mem.run_cons_some (SPI1Mem.cmdaddr_bit_step m 10 _ 0 (by omega))]
  rw [SPI1Mem.run_cons_some (SPI1Mem.cmdaddr_bit_step m 11 _ 0 (by omega))]
  rw [SPI1Mem.run_cons_some (SPI1Mem.cmdaddr_bit_step m 12 _ 0 (by omega))]
  rw [SPI1Mem.run_cons_some (SPI1Mem.cmdaddr_bit_step m 13 _ 0 (by omega))]
  rw [SPI1Mem.run_cons_some (SPI1Mem.cmdaddr_bit_step m 14 _ 0 (by omega))]
  rw [SPI1Mem.run_cons_some (SPI1Mem.cmdaddr_bit_step m 15 _ 0 (by omega))]
  rw [SPI1Mem.run_cons_some (SPI1Mem.cmdaddr_bit_step m 16 _ 0 (by omega))]
  rw [SPI1Mem.run_cons_some (SPI1Mem.cmdaddr_bit_step m 17 _ 0 (by omega))]
  rw [SPI1Mem.run_cons_some (SPI1Mem.cmdaddr_bit_step m 18 _ 0 (by omega))]
  rw [SPI1Mem.run_cons_some (SPI1Mem.cmdaddr_bit_step m 19 _ 0 (by omega))]
  rw [SPI1Mem.run_cons_some (SPI1Mem.cmdaddr_bit_step m 20 _ 0 (by omega))]
  rw [SPI1Mem.run_cons_some (SPI1Mem.cmdaddr_bit_step m 21 _ 0 (by omega))]
  rw [SPI1Mem.run_cons_some (SPI1Mem.cmdaddr_bit_step m 22 _ 0 (by omega))]
  rw [SPI1Mem.run_cons_some (SPI1Mem.cmdaddr_bit_step m 23 _ 0 (by omega))]
  rw [SPI1Mem.run_cons_some (SPI1Mem.cmdaddr_bit_step m 24 _ 0 (by omega))]
  rw [SPI1Mem.run_cons_some (SPI1Mem.cmdaddr_bit_step m 25 _ 0 (by omega))]
  rw [SPI1Mem.run_cons_some (SPI1Mem.cmdaddr_bit_step m 26 _ 1 (by omega))]
  rw [SPI1Mem.run_cons_some (SPI1Mem.cmdaddr_bit_step m 27 _ 0 (by omega))]
  rw [SPI1Mem.run_cons_some (SPI1Mem.cmdaddr_bit_step m 28 _ 0 (by omega))]
  rw [SPI1Mem.run_cons_some (SPI1Mem.cmdaddr_bit_step m 29 _ 0 (by omega))]
  rw [SPI1Mem.run_cons_some (SPI1Mem.cmdaddr_bit_step m 30 _ 0 (by omega))]
  rw [show ((((((((((((((((((((((((((((((((((((((((((((((((((((((((((((((0 <<< 1) ||| (0 &&& 1)) <<< 1) ||| (0 &&& 1)) <<< 1) ||| (0 &&& 1)) <<< 1) ||| (0 &&& 1)) <<< 1) ||| (0 &&& 1)) <<< 1) ||| (0 &&& 1)) <<< 1) ||| (1 &&& 1)) <<< 1) ||| (0 &&& 1)) <<< 1) ||| (0 &&& 1)) <<< 1) ||| (0 &&& 1)) <<< 1) ||| (0 &&& 1)) <<< 1) ||| (0 &&& 1)) <<< 1) ||| (0 &&& 1)) <<< 1) ||| (0 &&& 1)) <<< 1) ||| (0 &&& 1)) <<< 1) ||| (0 &&& 1)) <<< 1) ||| (0 &&& 1)) <<< 1) ||| (0 &&& 1)) <<< 1) ||| (0 &&& 1)) <<< 1) ||| (0 &&& 1)) <<< 1) ||| (0 &&& 1)) <<< 1) ||| (0 &&& 1)) <<< 1) ||| (0 &&& 1)) <<< 1) ||| (0 &&& 1)) <<< 1) ||| (0 &&& 1)) <<< 1) ||| (0 &&& 1)) <<< 1) ||| (1 &&& 1)) <<< 1) ||| (0 &&& 1)) <<< 1) ||| (0 &&& 1)) <<< 1) ||| (0 &&& 1)) <<< 1) ||| (0 &&& 1)) = (16777232 : Nat) from by decide]
  rw [SPI1Mem.run_cons_some (SPI1Mem.cmdaddr_bit_done m 16777232 0 (by decide) (by decide))]
  rw [SPI1Mem.run_cons_some (SPI1Mem.write_data_bit_step m 0 _ 1 (by omega))]
  rw [SPI1Mem.run_cons_some (SPI1Mem.write_data_bit_step m 1 _ 0 (by omega))]
  rw [SPI1Mem.run_cons_some (SPI1Mem.write_data_bit_step m 2 _ 1 (by omega))]
  rw [SPI1Mem.run_cons_some (SPI1Mem.write_data_bit_step m 3 _ 0 (by omega))]
  rw [SPI1Mem.run_cons_some (SPI1Mem.write_data_bit_step m 4 _ 0 (by omega))]
  rw [SPI1Mem.run_cons_some (SPI1Mem.write_data_bit_step m 5 _ 1 (by omega))]
  rw [SPI1Mem.run_cons_some (SPI1Mem.write_data_bit_step m 6 _ 0 (by omega))]
  rw [SPI1Mem.run_cons_some (SPI1Mem.write_data_bit_step m 7 _ 1 (by omega))]
  rw [show ((((((((((((((((0 <<< 1) ||| (1 &&& 1)) <<< 1) ||| (0 &&& 1)) <<< 1) ||| (1 &&& 1)) <<< 1) ||| (0 &&& 1)) <<< 1) ||| (0 &&& 1)) <<< 1) ||| (1 &&& 1)) <<< 1) ||| (0 &&& 1)) <<< 1) ||| (1 &&& 1)) = (165 : Nat) from by decide]
  rw [SPI1Mem.run_cons_some (SPI1Mem.write_deassert_byte m 165)]
  rfl

/-- C7: on the data path of the single-bit flash/PSRAM emulator, a write
transaction with command 0x02 to address 0x000020 in which exactly 8 data
bits (here 0xA5) are shifted before chip-select deasserts updates only the
memory byte at 0x000020 plus the PSRAM region base offset — every other
byte, in particular the neighbours of the containing halfword and word, is
unchanged — and the emulator returns to Idle. -/
theorem flash_write_byte_commit (m : Mem) (x : Nat)
    (hx : x ≠ 0x000020 + PSRAM_BASE_ADDR) :
    ∃ sF, SPI1Mem.run (SPI1Mem.init m)
        (SPI1Mem.writeTicks [1, 0, 1, 0, 0, 1, 0, 1]) = some sF ∧
      sF.fsm_state = SPI1Mem.FSM_IDLE ∧
      sF.command = 0x02 ∧
      sF.mem (0x000020 + PSRAM_BASE_ADDR) = 0xA5 ∧
      sF.mem x = m x := by
  refine ⟨_, c7_run_eval m, rfl, rfl, ?_, ?_⟩
  · show write_byte_to_memory m (0x000020 + PSRAM_BASE_ADDR) 0xA5
      (0x000020 + PSRAM_BASE_ADDR) = 0xA5
    simp [write_byte_to_memory, memSet]
    decide
  · show write_byte_to_memory m (0x000020 + PSRAM_BASE_ADDR) 0xA5 x = m x
    simp [write_byte_to_memory, memSet, hx]

/-- Witness for C7 at the all-zero memory and the word-neighbour byte
0x01000021. -/
theorem flash_write_byte_commit_witness :
    (0x01000021 : Nat) ≠ 0x000020 + PSRAM_BASE_ADDR ∧
    ∃ sF, SPI1Mem.run (SPI1Mem.init zeroMem)
        (SPI1Mem.writeTicks [1, 0, 1, 0, 0, 1, 0, 1]) = some sF ∧
      sF.mem (0x000020 + PSRAM_BASE_ADDR) = 0xA5 ∧
      sF.mem 0x01000021 = zeroMem 0x01000021 := by
  refine ⟨by decide, ?_⟩
  obtain ⟨sF, h1, _, _, h4, h5⟩ :=
    flash_write_byte_commit zeroMem 0x01000021 (by decide)
  exact ⟨sF, h1, h4, h5⟩

/-- C8: when a data-path write transaction (command 0x02, the spec's
standard-write opcode) of the single-bit flash/PSRAM emulator ends at
chip-select deassert, the commit is sized by the accumulated bit count —
8 bits store a byte, 16 a halfword, 32 a word at the transaction address —
any other nonzero bit count halts the emulator via its assertion without
writing anything, and a zero count commits nothing. -/
theorem flash_write_commit_sized (s : SPI1Mem.SPI1State)
    (h1 : s.is_instr = false) (h2 : s.command = 0x02)
    (h3 : s.fsm_state = SPI1Mem.FSM_DATA_TRANSFER) (io : Nat) :
    (s.bit_counter = 8 →
      SPI1Mem.step s 1 1 0 io =
        some { s with mem := write_byte_to_memory s.mem s.addr s.data,
                      fsm_state := SPI1Mem.FSM_IDLE }) ∧
    (s.bit_counter = 16 →
      SPI1Mem.step s 1 1 0 io =
        some { s with mem := write_halfword_to_memory s.mem s.addr s.data,
                      fsm_state := SPI1Mem.FSM_IDLE }) ∧
    (s.bit_counter = 32 →
      SPI1Mem.step s 1 1 0 io =
        some { s with mem := write_word_to_memory s.mem s.addr s.data,
                      fsm_state := SPI1Mem.FSM_IDLE }) ∧
    (s.bit_counter ≠ 0 → s.bit_counter ≠ 8 → s.bit_counter ≠ 16 →
      s.bit_counter ≠ 32 → SPI1Mem.step s 1 1 0 io = none) ∧
    (s.bit_counter = 0 →
      SPI1Mem.step s 1 1 0 io =
        some { s with fsm_state := SPI1Mem.FSM_IDLE }) := by
  obtain ⟨ii, cmd, fsm, bc, ad, da, sch, bio, mm⟩ := s
  simp only at h1 h2 h3
  subst h1 h2 h3
  refine ⟨?_, ?_, ?_, ?_, ?_⟩
  · intro h; simp only at h; subst h; rfl
  · intro h; simp only at h; subst h; rfl
  · intro h; simp only at h; subst h; rfl
  · intro h0 h8 h16 h32
    simp only at h0 h8 h16 h32
    have hpos : 0 < bc := Nat.pos_of_ne_zero h0
    simp [SPI1Mem.step, SPI1Mem.idlePhase, SPI1Mem.sclkPhase,
      SPI1Mem.deassertPhase, SPI1Mem.chainPhase,
      SPI1Mem.FSM_IDLE, SPI1Mem.FSM_SEND_CMD_ADDR,
      SPI1Mem.FSM_DATA_TRANSFER, SPI1Mem.FSM_DONE, hpos, h8, h16, h32]
  · intro h; simp only at h; subst h; rfl

/-- Witness for C8 at concrete deassert states: 8 accumulated bits commit a
byte, 12 accumulated bits are fatal. -/
theorem flash_write_commit_sized_witness :
    SPI1Mem.step
      { is_instr := false, command := 0x02,
        fsm_state := SPI1Mem.FSM_DATA_TRANSFER, bit_counter := 8,
        addr := 0x01000020, data := 0xA5, spi_clk_high := true,
        bus_io_in := 0, mem := zeroMem } 1 1 0 0 =
      some { is_instr := false, command := 0x02,
             fsm_state := SPI1Mem.FSM_IDLE, bit_counter := 8,
             addr := 0x01000020, data := 0xA5, spi_clk_high := true,
             bus_io_in := 0,
             mem := write_byte_to_memory zeroMem 0x01000020 0xA5 } ∧
    SPI1Mem.step
      { is_instr := false, command := 0x02,
        fsm_state := SPI1Mem.FSM_DATA_TRANSFER, bit_counter := 12,
        addr := 0x01000020, data := 0xFFF, spi_clk_high := true,
        bus_io_in := 0, mem := zeroMem } 1 1 0 0 = none := by
  constructor
  · exact (flash_write_commit_sized _ rfl rfl rfl 0).1 rfl
  · exact (flash_write_commit_sized _ rfl rfl rfl 0).2.2.2.1
      (by decide) (by decide) (by decide) (by decide)

namespace QSPIMem

theorem deassert_none_or_idle (s : QSPIState) :
    deassertPhase s 1 1 = none ∨
    ∃ u, deassertPhase s 1 1 = some u ∧ u.fsm_state = FSM_IDLE := by
  obtain ⟨ii, fc, cm, fsm, bc, ad, da, sch, bio, mm⟩ := s
  cases ii <;> (unfold deassertPhase; dsimp only) <;> repeat' split
  all_goals first
    | exact Or.inl rfl
    | exact Or.inr ⟨_, rfl, rfl⟩
    | simp_all

set_option linter.unusedTactic false in
theorem chain_keeps_idle (u : QSPIState) (sclk io : Nat)
    (h : u.fsm_state = FSM_IDLE) :
    (chainPhase u sclk io).fsm_state = FSM_IDLE := by
  obtain ⟨ii, fc, cm, fsm, bc, ad, da, sch, bio, mm⟩ := u
  simp only at h
  subst h
  cases ii <;> (unfold chainPhase; dsimp only) <;> repeat' split
  all_goals first
    | rfl
    | simp_all [apply_ite, FSM_IDLE, FSM_SEND_CMD, FSM_SEND_CMD_QUAD,
        FSM_SEND_ADDR, FSM_DUMMY, FSM_DATA_TRANSFER, FSM_DONE]

theorem step_deassert_to_idle (q : QSPIState) (sclk io : Nat)
    (r : QSPIState) (h : step q 1 1 sclk io = some r) :
    r.fsm_state = FSM_IDLE := by
  unfold step at h
  by_cases hf : (q.fsm_state == FSM_IDLE) = true
  · rw [if_pos hf] at h
    injection h with h2
    subst h2
    have hq : idlePhase q 1 1 = q := rfl
    rw [hq]
    simpa using hf
  · rw [if_neg hf] at h
    rcases deassert_none_or_idle (sclkPhase q sclk) with hnone | ⟨u, hu, hidle⟩
    · rw [hnone] at h
      simp at h
    · rw [hu] at h
      simp only [Option.map_some'] at h
      injection h with h2
      subst h2
      exact chain_keeps_idle u sclk io hidle

end QSPIMem

namespace SPI1Mem

theorem spi1_deassert_none_or_idle (s : SPI1State) :
    deassertPhase s 1 1 = none ∨
    ∃ u, deassertPhase s 1 1 = some u ∧ u.fsm_state = FSM_IDLE := by
  obtain ⟨ii, cm, fsm, bc, ad, da, sch, bio, mm⟩ := s
  cases ii <;> (unfold deassertPhase; dsimp only) <;> repeat' split
  all_goals first
    | exact Or.inl rfl
    | exact Or.inr ⟨_, rfl, rfl⟩
    | simp_all

theorem spi1_chain_keeps_idle (u : SPI1State) (sclk io : Nat)
    (h : u.fsm_state = FSM_IDLE) :
    (chainPhase u sclk io).fsm_state = FSM_IDLE := by
  obtain ⟨ii, cm, fsm, bc, ad, da, sch, bio, mm⟩ := u
  simp only at h
  subst h
  cases ii <;> (unfold chainPhase; dsimp only) <;> repeat' split
  all_goals first
    | rfl
    | simp_all [apply_ite, FSM_IDLE, FSM_SEND_CMD_ADDR, FSM_DATA_TRANSFER,
        FSM_PAUSE, FSM_DONE]

theorem spi1_step_deassert_to_idle (q : SPI1State) (sclk io : Nat)
    (r : SPI1State) (h : step q 1 1 sclk io = some r) :
    r.fsm_state = FSM_IDLE := by
  unfold step at h
  by_cases hf : (q.fsm_state == FSM_IDLE) = true
  · rw [if_pos hf] at h
    injection h with h2
    subst h2
    have hq : idlePhase q 1 1 = q := rfl
    rw [hq]
    simpa using hf
  · rw [if_neg hf] at h
    rcases spi1_deassert_none_or_idle (sclkPhase q sclk) with hnone | ⟨u, hu, hidle⟩
    · rw [hnone] at h
      simp at h
    · rw [hu] at h
      simp only [Option.map_some'] at h
      injection h with h2
      subst h2
      exact spi1_chain_keeps_idle u sclk io hidle

end SPI1Mem

/-- C4 (amended): I2C STOP resets state and counters on the next tick from
every state; SPI chip-select deassertion resets the SPI BFM counters; the
quad and single-bit flash emulators return to FSM_IDLE on the deassert edge
but clear bit_counter only at the next transaction start (idlePhase). -/
theorem stop_deassert_forces_idle :
    (∀ s : I2CState, s.prev_sda = 0 →
      (I2CSlaveBFM.step s 1 1).state = I2CFSM.IDLE ∧
      (I2CSlaveBFM.step s 1 1).bit_count = 0 ∧
      (I2CSlaveBFM.step s 1 1).shift_reg = 0 ∧
      (I2CSlaveBFM.step s 1 1).ack_pending = false ∧
      (I2CSlaveBFM.step s 1 1).sda_in = 1) ∧
    (∀ (t : SPIState) (sclk mosi : Nat), t.prev_cs_n = 0 →
      (SPISlaveBFM.step t 1 sclk mosi).bit_count = 0 ∧
      (SPISlaveBFM.step t 1 sclk mosi).rx_byte = 0 ∧
      (SPISlaveBFM.step t 1 sclk mosi).miso = 0) ∧
    (∀ (q : QSPIMem.QSPIState) (sclk io : Nat) (r : QSPIMem.QSPIState),
      QSPIMem.step q 1 1 sclk io = some r →
      r.fsm_state = QSPIMem.FSM_IDLE) ∧
    (∀ (q : SPI1Mem.SPI1State) (sclk io : Nat) (r : SPI1Mem.SPI1State),
      SPI1Mem.step q 1 1 sclk io = some r →
      r.fsm_state = SPI1Mem.FSM_IDLE) ∧
    (∀ q : QSPIMem.QSPIState, (QSPIMem.idlePhase q 0 1).bit_counter = 0) ∧
    (∀ q : SPI1Mem.SPI1State, (SPI1Mem.idlePhase q 0 1).bit_counter = 0) := by
  refine ⟨?_, ?_, ?_, ?_, ?_, ?_⟩
  · intro s h
    obtain ⟨ad, rx, tx, ti, pv, pc, st, bc, sr, rw, ap, si, al⟩ := s
    simp only at h
    subst h
    exact ⟨rfl, rfl, rfl, rfl, rfl⟩
  · intro t sclk mosi h
    obtain ⟨rb, tb, ct, bc, ry, ty, ti, ps, pc, mi⟩ := t
    simp only at h
    subst h
    exact ⟨rfl, rfl, rfl⟩
  · exact fun q sclk io r h => QSPIMem.step_deassert_to_idle q sclk io r h
  · exact fun q sclk io r h => SPI1Mem.spi1_step_deassert_to_idle q sclk io r h
  · intro q
    rfl
  · intro q
    rfl

/-- C4 witness: the amended theorem applied at concrete states. -/
theorem stop_deassert_forces_idle_witness :
    ((I2CSlaveBFM.step c4i2cPre 1 1).state = I2CFSM.IDLE ∧
     (I2CSlaveBFM.step c4i2cPre 1 1).bit_count = 0 ∧
     (I2CSlaveBFM.step c4i2cPre 1 1).shift_reg = 0 ∧
     (I2CSlaveBFM.step c4i2cPre 1 1).ack_pending = false ∧
     (I2CSlaveBFM.step c4i2cPre 1 1).sda_in = 1) ∧
    ((SPISlaveBFM.step c4spiPre 1 0 0).bit_count = 0 ∧
     (SPISlaveBFM.step c4spiPre 1 0 0).rx_byte = 0 ∧
     (SPISlaveBFM.step c4spiPre 1 0 0).miso = 0) ∧
    c4qspiPost.fsm_state = QSPIMem.FSM_IDLE ∧
    c4spi1Post.fsm_state = SPI1Mem.FSM_IDLE :=
  ⟨stop_deassert_forces_idle.1 c4i2cPre rfl,
   stop_deassert_forces_idle.2.1 c4spiPre 0 0 rfl,
   stop_deassert_forces_idle.2.2.1 c4qspiPre 0 0 c4qspiPost rfl,
   stop_deassert_forces_idle.2.2.2.1 c4spi1Pre 0 0 c4spi1Post rfl⟩

/-- C4 counterexample: a flash (quad emulator) transaction aborted by
chip-select deassertion after three command bits returns to FSM_IDLE but
leaves bit_counter at 3, not 0 — the claimed counter reset at the deassert
edge does not happen in the flash emulators. -/
theorem flash_deassert_retains_bit_counter :
    Option.map QSPIMem.QSPIState.fsm_state
        (QSPIMem.run (QSPIMem.init zeroMem) c4trace) =
      some QSPIMem.FSM_IDLE ∧
    Option.map QSPIMem.QSPIState.bit_counter
        (QSPIMem.run (QSPIMem.init zeroMem) c4trace) = some 3 ∧
    (3 : Nat) ≠ 0 :=
  ⟨rfl, rfl, by decide⟩
